import Mathlib

/-!
Verification of the whisper-server HTTP gateway (src/whisper-server/main.py).

The Python endpoint is shallowly embedded: Python string methods are
modelled as structural functions on character lists, the filesystem as a
finite set of paths, the transcription engine as an oracle function from
its call arguments to either a segment list or a raised message, and the
wall clock as a rational elapsed-seconds input. Machine behaviour such as
the round-half-to-even semantics of the Python round builtin is modelled
explicitly.
-/

set_option maxRecDepth 2048

namespace WhisperServer

/-- Python whitespace test used by the strip method (ASCII cases). -/
def pyIsSpace (c : Char) : Bool :=
  c = ' ' || c = '\t' || c = '\n' || c = '\r' || c = '\x0b' || c = '\x0c'

/-- Python strip on a character list: drop whitespace from both ends. -/
def pyStripList (l : List Char) : List Char :=
  ((l.dropWhile pyIsSpace).reverse.dropWhile pyIsSpace).reverse

/-- Python str.strip method. -/
def pyStrip (s : String) : String :=
  String.mk (pyStripList s.data)

/-- Python str.join method: concatenate with the separator between
consecutive elements; empty list gives the empty string. -/
def pyJoin (sep : String) : List String → String
  | [] => ""
  | [a] => a
  | a :: b :: rest => a ++ sep ++ pyJoin sep (b :: rest)

/-- Python str.split method with a one-character separator, on character
lists. Splitting the empty string gives one empty group, exactly as in
Python. -/
def pySplit (sep : Char) : List Char → List (List Char)
  | [] => [[]]
  | c :: rest =>
    match pySplit sep rest with
    | [] => [[]]
    | g :: gs => if c = sep then [] :: g :: gs else (c :: g) :: gs

/-- Last group of a Python split, i.e. the Python expression
s.split(sep)[-1]. -/
def pyLastGroup (sep : Char) (l : List Char) : List Char :=
  (pySplit sep l).getLastD []

/-- Extension used for the temp file name: main.py line 149 computes
filename.split(".")[-1]. -/
def pyExt (filename : String) : String :=
  String.mk (pyLastGroup '.' filename.data)

/-- Specification-side description of the extension: the substring after
the last dot, or the whole string when it has no dot. -/
def afterLastDot : List Char → List Char
  | [] => []
  | c :: rest =>
    if '.' ∈ rest then afterLastDot rest
    else if c = '.' then rest
    else c :: rest

/-- Lowercase hexadecimal digit, the alphabet of the hex form of a
Python uuid4 value. -/
def isLowerHex (c : Char) : Bool :=
  c.isDigit || ('a' ≤ c && c ≤ 'f')

/-- Filesystem model: the finite set of existing paths. -/
abbrev FS := List String

/-- Path existence test, modelling os.path.exists. -/
def pathExists (p : String) (fs : FS) : Bool :=
  fs.contains p

/-- File creation, modelling open(p, "wb") followed by a write. -/
def createFile (p : String) (fs : FS) : FS :=
  if pathExists p fs then fs else p :: fs

/-- File removal, modelling os.remove. -/
def removeFile (p : String) (fs : FS) : FS :=
  fs.filter (fun q => q != p)

/-- Cleanup block of main.py lines 185-188: remove the temp file when it
exists, otherwise leave the filesystem unchanged. -/
def cleanupTemp (p : String) (fs : FS) : FS :=
  if pathExists p fs then removeFile p fs else fs

/-- Arguments of the engine invocation at main.py lines 158-166: the temp
path, the audio bytes stored at that path, the language hint, and the
fixed decoding policy (beam size 5, VAD filtering with a 100 ms minimum
silence gap). -/
structure EngineCall where
  path : String
  audio : List Nat
  language : Option String
  beam_size : Nat
  vad_filter : Bool
  min_silence_duration_ms : Nat

/-- Outcome of one engine invocation: an ordered list of segment texts,
or a raised exception carrying a message. The err case also models any
other exception raised inside the try block of the endpoint. -/
inductive EngineOutcome where
  | ok (segments : List String)
  | err (msg : String)

/-- Engine handle: an oracle from call arguments to an outcome. -/
abbrev Engine := EngineCall → EngineOutcome

/-- Multipart form fields of a transcription request
(main.py lines 114-119). -/
structure Request where
  fileContent : List Nat
  filename : String
  model : String
  response_format : String
  language : Option String
  timestamp_granularities : Option String

/-- Server state and per-request oracles: the global whisper_model handle,
the configured model size, the temp filesystem, the hex form of the uuid4
value drawn by this request, and the wall-clock seconds elapsed around the
engine call. -/
structure World where
  whisperModel : Option Engine
  modelSize : String
  fs : FS
  uuidHex : String
  elapsed : ℚ

/-- Success payload of the endpoint (main.py lines 38-41). The duration
value produced by the code is the integer result of the Python round
builtin. -/
structure TranscriptionResponse where
  text : String
  model : String
  duration : ℤ
deriving DecidableEq

/-- HTTP result of the endpoint: a 200 payload, or an HTTPException with
a status code and a detail message. -/
inductive Response where
  | ok (payload : TranscriptionResponse)
  | httpError (status : Nat) (detail : String)
deriving DecidableEq

/-- Status code of a response. -/
def Response.status : Response → Nat
  | .ok _ => 200
  | .httpError s _ => s

/-- Transcribed text of a response, when the response is a success. -/
def responseText : Response → Option String
  | .ok r => some r.text
  | .httpError _ _ => none

/-- JSON body shapes observable on the wire: the success payload, the
FastAPI rendering of an HTTPException as a detail field, and the error
field shape produced by the global exception handler. -/
inductive JsonBody where
  | transcription (r : TranscriptionResponse)
  | detailBody (msg : String)
  | errorBody (msg : String)
deriving DecidableEq

/-- Wire rendering of an endpoint result: FastAPI serialises a success
payload directly and an HTTPException as a body with a detail field. -/
def renderBody : Response → JsonBody
  | .ok r => .transcription r
  | .httpError _ d => .detailBody d

/-- Test for the error-field body shape. -/
def JsonBody.isErrorShape : JsonBody → Bool
  | .errorBody _ => true
  | _ => false

/-- Python round builtin on a rational: round half to even. -/
def roundHalfEven (x : ℚ) : ℤ :=
  if Int.fract x = 1/2 then (if 2 ∣ ⌊x⌋ then ⌊x⌋ else ⌊x⌋ + 1)
  else round x

/-- Temp file path built at main.py line 149. -/
def temp_filename (uuidHex filename : String) : String :=
  "/tmp/whisper_" ++ uuidHex ++ "." ++ pyExt filename

/-- Engine call assembled by the endpoint (main.py lines 158-166). -/
def engineCallOf (w : World) (req : Request) : EngineCall :=
  ⟨temp_filename w.uuidHex req.filename, req.fileContent, req.language, 5, true, 100⟩

/-- Endpoint POST /v1/audio/transcriptions (main.py lines 113-188),
returning the HTTP result together with the final temp filesystem. -/
def transcribe_audio (w : World) (req : Request) : Response × FS :=
  match w.whisperModel with
  | none =>
    (.httpError 503 "Whisper model not loaded. Please wait for server to initialize.", w.fs)
  | some eng =>
    if req.fileContent.length > 100 * 1024 * 1024 then
      (.httpError 400 "File too large (max 100MB)", w.fs)
    else if req.fileContent.length < 1024 then
      (.httpError 400 "File too small (may be empty)", w.fs)
    else
      let temp := temp_filename w.uuidHex req.filename
      let fs1 := createFile temp w.fs
      match eng (engineCallOf w req) with
      | .ok segs =>
        (.ok ⟨pyStrip (pyJoin (" ") segs), req.model, roundHalfEven (w.elapsed * 1000)⟩,
          cleanupTemp temp fs1)
      | .err msg =>
        (.httpError 500 ("Transcription failed: " ++ msg), cleanupTemp temp fs1)

/-- Health endpoint payload (main.py lines 87-94). -/
structure HealthResponse where
  status : String
  model : String
  ready : Bool

/-- Endpoint GET /health (main.py lines 87-94). -/
def health_check (w : World) : HealthResponse :=
  ⟨"ok", w.modelSize, w.whisperModel.isSome⟩

/-- Global exception handler (main.py lines 191-197): any exception that
escapes the endpoint handlers is rendered as status 500 with an error
field carrying the message. -/
def global_exception_handler (msg : String) : Nat × JsonBody :=
  (500, .errorBody msg)

theorem pathExists_eq_decide (p : String) (fs : FS) :
    pathExists p fs = decide (p ∈ fs) := by
  simp [pathExists, List.contains]

theorem pathExists_removeFile (p : String) (fs : FS) :
    pathExists p (removeFile p fs) = false := by
  rw [pathExists_eq_decide]
  simp [removeFile]

theorem pathExists_cleanupTemp (p : String) (fs : FS) :
    pathExists p (cleanupTemp p fs) = false := by
  unfold cleanupTemp
  split
  · exact pathExists_removeFile p fs
  · next h => simpa using h

theorem pySplit_ne_nil (sep : Char) (l : List Char) : pySplit sep l ≠ [] := by
  cases l with
  | nil => simp [pySplit]
  | cons c rest =>
    simp only [pySplit]
    cases h : pySplit sep rest with
    | nil => simp
    | cons g gs =>
      by_cases hc : c = sep <;> simp [hc]

theorem pySplit_of_not_mem (sep : Char) (l : List Char) (h : sep ∉ l) :
    pySplit sep l = [l] := by
  induction l with
  | nil => rfl
  | cons c rest ih =>
    have hc : c ≠ sep := by
      intro e
      exact h (e ▸ List.mem_cons_self c rest)
    have hr : sep ∉ rest := fun m => h (List.mem_cons_of_mem _ m)
    simp [pySplit, ih hr, hc]

theorem pySplit_eq_singleton (sep : Char) (l : List Char) (g : List Char)
    (h : pySplit sep l = [g]) : g = l ∧ sep ∉ l := by
  induction l generalizing g with
  | nil =>
    simp only [pySplit, List.cons.injEq, and_true] at h
    subst h
    simp
  | cons c rest ih =>
    cases hr : pySplit sep rest with
    | nil => exact absurd hr (pySplit_ne_nil _ _)
    | cons g0 gs0 =>
      simp only [pySplit, hr] at h
      by_cases hc : c = sep
      · rw [if_pos hc] at h
        simp at h
      · rw [if_neg hc] at h
        injection h with h1 h2
        subst h2
        rcases ih g0 hr with ⟨hg0, hmem⟩
        subst hg0
        refine ⟨h1.symm, ?_⟩
        intro hm
        rcases List.mem_cons.mp hm with he | he
        · exact hc he.symm
        · exact hmem he

theorem afterLastDot_of_not_mem (l : List Char) (h : '.' ∉ l) :
    afterLastDot l = l := by
  cases l with
  | nil => rfl
  | cons c rest =>
    have hr : '.' ∉ rest := fun m => h (List.mem_cons_of_mem _ m)
    have hc : ¬c = '.' := by
      intro e
      exact h (e ▸ List.mem_cons_self c rest)
    simp [afterLastDot, hr, hc]

theorem getLastD_irrel (g2 : List Char) (gs2 : List (List Char))
    (d1 d2 : List Char) :
    (g2 :: gs2).getLastD d1 = (g2 :: gs2).getLastD d2 := by
  cases gs2 with
  | nil => rfl
  | cons b t =>
    calc (g2 :: b :: t).getLastD d1
        = (b :: t).getLastD g2 := List.getLastD_cons _ _ _
      _ = (g2 :: b :: t).getLastD d2 := (List.getLastD_cons _ _ _).symm

theorem pyLastGroup_eq_afterLastDot (l : List Char) :
    pyLastGroup '.' l = afterLastDot l := by
  induction l with
  | nil => rfl
  | cons c rest ih =>
    unfold pyLastGroup at ih ⊢
    cases hr : pySplit '.' rest with
    | nil => exact absurd hr (pySplit_ne_nil _ _)
    | cons g gs =>
      simp only [pySplit, hr]
      rw [hr] at ih
      by_cases hc : c = '.'
      · rw [if_pos hc]
        subst hc
        rw [List.getLastD_cons]
        by_cases hmem : '.' ∈ rest
        · have hR : afterLastDot ('.' :: rest) = afterLastDot rest := by
            simp [afterLastDot, hmem]
          rw [hR]
          exact ih
        · have hR : afterLastDot ('.' :: rest) = rest := by
            simp [afterLastDot, hmem]
          rw [hR]
          rw [afterLastDot_of_not_mem rest hmem] at ih
          exact ih
      · rw [if_neg hc]
        cases gs with
        | nil =>
          rcases pySplit_eq_singleton '.' rest g hr with ⟨hg, hmem⟩
          subst hg
          simp [afterLastDot, hmem, hc]
        | cons g2 gs2 =>
          have hmem : '.' ∈ rest := by
            by_contra hnm
            rw [pySplit_of_not_mem '.' rest hnm] at hr
            simp at hr
          calc ((c :: g) :: g2 :: gs2).getLastD ([] : List Char)
              = (g2 :: gs2).getLastD (c :: g) := List.getLastD_cons _ _ _
            _ = (g2 :: gs2).getLastD g := getLastD_irrel g2 gs2 _ _
            _ = (g :: g2 :: gs2).getLastD [] := (List.getLastD_cons _ _ _).symm
            _ = afterLastDot rest := ih
            _ = afterLastDot (c :: rest) := by simp [afterLastDot, hmem]

theorem roundHalfEven_nonneg (x : ℚ) (hx : 0 ≤ x) : 0 ≤ roundHalfEven x := by
  unfold roundHalfEven
  split
  · have hf := Int.floor_nonneg.mpr hx
    split
    · exact hf
    · omega
  · rw [round_eq]
    exact Int.floor_nonneg.mpr (by linarith)

theorem abs_roundHalfEven_sub (x : ℚ) : |(roundHalfEven x : ℚ) - x| ≤ 1/2 := by
  unfold roundHalfEven
  split
  · next hfrac =>
    have hfloor : x - (⌊x⌋ : ℚ) = 1/2 := by
      rw [Int.fract] at hfrac
      exact hfrac
    split
    · rw [abs_le]
      constructor <;> linarith
    · rw [abs_le]
      push_cast
      constructor <;> linarith
  · have h := abs_sub_round x
    rw [abs_sub_comm] at h
    exact h

/-- Hex string of a fixed uuid4 draw, used by concrete instances. -/
def uuidA : String := "0123456789abcdef0123456789abcdef"

/-- Payload of exactly 1 KiB, the lower validation boundary. -/
def contentOk : List Nat := List.replicate 1024 0

/-- Engine oracle producing no segments. -/
def engEmpty : Engine := fun _ => .ok []

/-- Engine oracle producing two segments. -/
def engHello : Engine := fun _ => .ok ["Hello", " world"]

/-- Engine oracle raising an exception with message boom. -/
def engBoom : Engine := fun _ => .err "boom"

/-- Concrete request with a 1 KiB payload and default form fields. -/
def reqBase : Request := ⟨contentOk, "clip.wav", "whisper-1", "json", none, none⟩

/-- Concrete request equal to reqBase except in the three advisory form
fields model, response_format and timestamp_granularities. -/
def reqAlt : Request := ⟨contentOk, "clip.wav", "other-model", "text", none, some "word"⟩

/-- Concrete request with an empty payload (fails validation). -/
def reqTiny : Request := ⟨[], "clip.wav", "whisper-1", "json", none, none⟩

/-- Concrete request whose filename has no dot. -/
def reqNoDot : Request := ⟨contentOk, "archive", "whisper-1", "json", none, none⟩

/-- Server state with the empty-segments engine loaded. -/
def wEmpty : World := ⟨some engEmpty, "small", [], uuidA, 0⟩

/-- Server state with the two-segment engine loaded. -/
def wHello : World := ⟨some engHello, "small", [], uuidA, 0⟩

/-- Server state with the raising engine loaded. -/
def wBoom : World := ⟨some engBoom, "small", [], uuidA, 0⟩

/-- Server state with no engine loaded. -/
def wNone : World := ⟨none, "small", [], uuidA, 0⟩

/-- Claim C1, counterexample: a payload of exactly 1 KiB sits at the lower
boundary that the claim says is rejected, yet the endpoint accepts it and
answers 200, so validation does not reject the inclusive boundaries. -/
theorem C1_counterexample :
    reqBase.fileContent.length = 1024 ∧
    (transcribe_audio wEmpty reqBase).1.status = 200 := by
  have hlen : reqBase.fileContent.length = 1024 := by
    show (List.replicate 1024 (0 : Nat)).length = 1024
    exact List.length_replicate 1024 0
  refine ⟨hlen, ?_⟩
  have h1 : ¬reqBase.fileContent.length > 100 * 1024 * 1024 := by omega
  have h2 : ¬reqBase.fileContent.length < 1024 := by omega
  have hw : wEmpty.whisperModel = some engEmpty := rfl
  simp [transcribe_audio, hw, h1, h2, engEmpty, Response.status]

/-- Claim C1 (amended): validation passes exactly when the payload size
lies in the closed interval from 1 KiB to 100 MiB, boundaries accepted;
sizes strictly above 100 MiB fail with the too-large 400 error and sizes
strictly below 1 KiB fail with the too-small 400 error. -/
theorem C1_size_validation (w : World) (req : Request) (eng : Engine)
    (hw : w.whisperModel = some eng) :
    ((transcribe_audio w req).1.status ≠ 400 ↔
      1024 ≤ req.fileContent.length ∧ req.fileContent.length ≤ 100 * 1024 * 1024) ∧
    ((transcribe_audio w req).1 = .httpError 400 "File too large (max 100MB)" ↔
      100 * 1024 * 1024 < req.fileContent.length) ∧
    ((transcribe_audio w req).1 = .httpError 400 "File too small (may be empty)" ↔
      req.fileContent.length < 1024) := by
  have hLS : ("File too large (max 100MB)" : String) ≠ "File too small (may be empty)" := by
    decide
  by_cases hbig : req.fileContent.length > 100 * 1024 * 1024
  · have e : (transcribe_audio w req).1 = .httpError 400 "File too large (max 100MB)" := by
      simp [transcribe_audio, hw, hbig]
    rw [e]
    refine ⟨?_, ?_, ?_⟩
    · simp only [Response.status]
      constructor
      · intro h
        exact absurd rfl h
      · intro h
        exact absurd hbig (by omega)
    · constructor
      · intro _
        omega
      · intro _
        rfl
    · constructor
      · intro h
        injection h with h1 h2
        exact absurd h2 hLS
      · intro h
        exact absurd hbig (by omega)
  · by_cases hsmall : req.fileContent.length < 1024
    · have e : (transcribe_audio w req).1 = .httpError 400 "File too small (may be empty)" := by
        simp [transcribe_audio, hw, hbig, hsmall]
      rw [e]
      refine ⟨?_, ?_, ?_⟩
      · simp only [Response.status]
        constructor
        · intro h
          exact absurd rfl h
        · intro h
          exact absurd hsmall (by omega)
      · constructor
        · intro h
          injection h with h1 h2
          exact absurd h2.symm hLS
        · intro h
          exact absurd h (by omega)
      · constructor
        · intro _
          omega
        · intro _
          rfl
    · have hst : (transcribe_audio w req).1.status ≠ 400 := by
        cases hcall : eng (engineCallOf w req) with
        | ok segs => simp [transcribe_audio, hw, hbig, hsmall, hcall, Response.status]
        | err msg => simp [transcribe_audio, hw, hbig, hsmall, hcall, Response.status]
      have hne : ∀ d : String, (transcribe_audio w req).1 ≠ .httpError 400 d := by
        intro d h
        exact hst (by rw [h]; rfl)
      refine ⟨?_, ?_, ?_⟩
      · constructor
        · intro _
          omega
        · intro _
          exact hst
      · constructor
        · intro h
          exact absurd h (hne _)
        · intro h
          omega
      · constructor
        · intro h
          exact absurd h (hne _)
        · intro h
          omega

/-- Claim C1 (amended) witness at the lower boundary size 1 KiB. -/
theorem C1_size_validation_witness :
    wEmpty.whisperModel = some engEmpty ∧
    ((transcribe_audio wEmpty reqBase).1.status ≠ 400 ↔
      1024 ≤ reqBase.fileContent.length ∧
        reqBase.fileContent.length ≤ 100 * 1024 * 1024) := by
  exact ⟨rfl, (C1_size_validation wEmpty reqBase engEmpty rfl).1⟩

/-- Claim C6: with no engine handle loaded the endpoint answers 503 and
leaves the filesystem unchanged, whatever the request contains, so the
readiness check precedes payload validation. -/
theorem C6_engine_not_loaded (w : World) (req : Request)
    (hw : w.whisperModel = none) :
    (transcribe_audio w req).1 =
      .httpError 503 "Whisper model not loaded. Please wait for server to initialize." ∧
    (transcribe_audio w req).2 = w.fs := by
  simp [transcribe_audio, hw]

/-- Claim C6 witness: even a request whose payload would fail validation
gets 503 when the engine is absent. -/
theorem C6_engine_not_loaded_witness :
    wNone.whisperModel = none ∧
    reqTiny.fileContent.length < 1024 ∧
    (transcribe_audio wNone reqTiny).1 =
      .httpError 503 "Whisper model not loaded. Please wait for server to initialize." := by
  exact ⟨rfl, by decide, (C6_engine_not_loaded wNone reqTiny rfl).1⟩

/-- Claim C7: a request rejected by payload-size validation answers 400
and leaves the temp filesystem exactly as it was. -/
theorem C7_validation_leaves_fs (w : World) (req : Request) (eng : Engine)
    (hw : w.whisperModel = some eng)
    (hbad : req.fileContent.length < 1024 ∨ 100 * 1024 * 1024 < req.fileContent.length) :
    (transcribe_audio w req).2 = w.fs ∧ (transcribe_audio w req).1.status = 400 := by
  rcases hbad with h | h
  · have hbig : ¬req.fileContent.length > 100 * 1024 * 1024 := by omega
    simp [transcribe_audio, hw, hbig, h, Response.status]
  · simp [transcribe_audio, hw, h, Response.status]

/-- Claim C7 witness on an empty payload. -/
theorem C7_validation_leaves_fs_witness :
    wEmpty.whisperModel = some engEmpty ∧
    reqTiny.fileContent.length < 1024 ∧
    (transcribe_audio wEmpty reqTiny).2 = wEmpty.fs ∧
    (transcribe_audio wEmpty reqTiny).1.status = 400 := by
  have h := C7_validation_leaves_fs wEmpty reqTiny engEmpty rfl (Or.inl (by decide))
  exact ⟨rfl, by decide, h.1, h.2⟩

/-- Claim C10: the health endpoint reports ready exactly when a
transcription request in the same state would not be answered 503,
because both observations test the same engine handle. -/
theorem C10_health_iff_not_503 (w : World) (req : Request) :
    ((health_check w).ready = true) ↔ (transcribe_audio w req).1.status ≠ 503 := by
  cases hw : w.whisperModel with
  | none => simp [health_check, transcribe_audio, hw, Response.status]
  | some eng =>
    simp only [health_check, hw, Option.isSome_some]
    constructor
    · intro _
      by_cases hbig : req.fileContent.length > 100 * 1024 * 1024
      · simp [transcribe_audio, hw, hbig, Response.status]
      · by_cases hsmall : req.fileContent.length < 1024
        · simp [transcribe_audio, hw, hbig, hsmall, Response.status]
        · cases hcall : eng (engineCallOf w req) with
          | ok segs => simp [transcribe_audio, hw, hbig, hsmall, hcall, Response.status]
          | err msg => simp [transcribe_audio, hw, hbig, hsmall, hcall, Response.status]
    · intro _
      trivial

theorem reqBase_length : reqBase.fileContent.length = 1024 := by
  show (List.replicate 1024 (0 : Nat)).length = 1024
  exact List.length_replicate 1024 0

/-- Claim C2: every request that reaches the temp-file step leaves no temp
file on disk when it returns, on success and on engine failure alike. -/
theorem C2_temp_cleanup (w : World) (req : Request) (eng : Engine)
    (hw : w.whisperModel = some eng)
    (hmin : 1024 ≤ req.fileContent.length)
    (hmax : req.fileContent.length ≤ 100 * 1024 * 1024) :
    pathExists (temp_filename w.uuidHex req.filename) (transcribe_audio w req).2 = false := by
  have hbig : ¬req.fileContent.length > 100 * 1024 * 1024 := by omega
  have hsmall : ¬req.fileContent.length < 1024 := by omega
  cases hcall : eng (engineCallOf w req) with
  | ok segs =>
    simp [transcribe_audio, hw, hbig, hsmall, hcall, pathExists_cleanupTemp]
  | err msg =>
    simp [transcribe_audio, hw, hbig, hsmall, hcall, pathExists_cleanupTemp]

/-- Claim C2 witness on the engine-failure exit path. -/
theorem C2_temp_cleanup_witness :
    wBoom.whisperModel = some engBoom ∧
    1024 ≤ reqBase.fileContent.length ∧
    reqBase.fileContent.length ≤ 100 * 1024 * 1024 ∧
    pathExists (temp_filename wBoom.uuidHex reqBase.filename)
      (transcribe_audio wBoom reqBase).2 = false := by
  have hlen := reqBase_length
  refine ⟨rfl, by omega, by omega, ?_⟩
  exact C2_temp_cleanup wBoom reqBase engBoom rfl (by omega) (by omega)

/-- Claim C3: on success the returned text is the segment texts joined
with a single space separator and then stripped of outer whitespace, and
an empty segment sequence yields the empty text with status 200. -/
theorem C3_join_segments (w : World) (req : Request) (eng : Engine) (segs : List String)
    (hw : w.whisperModel = some eng)
    (hmin : 1024 ≤ req.fileContent.length)
    (hmax : req.fileContent.length ≤ 100 * 1024 * 1024)
    (hcall : eng (engineCallOf w req) = .ok segs) :
    responseText (transcribe_audio w req).1 = some (pyStrip (pyJoin (" ") segs)) ∧
    (transcribe_audio w req).1.status = 200 ∧
    (segs = [] → responseText (transcribe_audio w req).1 = some ("")) := by
  have hbig : ¬req.fileContent.length > 100 * 1024 * 1024 := by omega
  have hsmall : ¬req.fileContent.length < 1024 := by omega
  have e : responseText (transcribe_audio w req).1 = some (pyStrip (pyJoin (" ") segs)) := by
    simp [transcribe_audio, hw, hbig, hsmall, hcall, responseText]
  refine ⟨e, ?_, ?_⟩
  · simp [transcribe_audio, hw, hbig, hsmall, hcall, Response.status]
  · intro hnil
    subst hnil
    rw [e]
    decide

/-- Claim C3 witness: the zero-segment engine yields empty text and
status 200. -/
theorem C3_join_segments_witness :
    wEmpty.whisperModel = some engEmpty ∧
    engEmpty (engineCallOf wEmpty reqBase) = .ok [] ∧
    responseText (transcribe_audio wEmpty reqBase).1 = some ("") ∧
    (transcribe_audio wEmpty reqBase).1.status = 200 := by
  have hlen := reqBase_length
  have h := C3_join_segments wEmpty reqBase engEmpty [] rfl (by omega) (by omega) rfl
  exact ⟨rfl, rfl, h.2.2 rfl, h.2.1⟩

/-- Claim C4: a successful request answers 200 with the joined text, the
model form field echoed unchanged, and a duration that is the integer
nearest-rounding of the elapsed wall-clock milliseconds, hence
non-negative. -/
theorem C4_success_payload (w : World) (req : Request) (eng : Engine) (segs : List String)
    (hw : w.whisperModel = some eng)
    (hmin : 1024 ≤ req.fileContent.length)
    (hmax : req.fileContent.length ≤ 100 * 1024 * 1024)
    (hcall : eng (engineCallOf w req) = .ok segs)
    (hel : 0 ≤ w.elapsed) :
    (transcribe_audio w req).1 =
      .ok ⟨pyStrip (pyJoin (" ") segs), req.model, roundHalfEven (w.elapsed * 1000)⟩ ∧
    0 ≤ roundHalfEven (w.elapsed * 1000) ∧
    |((roundHalfEven (w.elapsed * 1000) : ℚ)) - w.elapsed * 1000| ≤ 1/2 := by
  have hbig : ¬req.fileContent.length > 100 * 1024 * 1024 := by omega
  have hsmall : ¬req.fileContent.length < 1024 := by omega
  refine ⟨?_, ?_, ?_⟩
  · simp [transcribe_audio, hw, hbig, hsmall, hcall]
  · exact roundHalfEven_nonneg _ (mul_nonneg hel (by norm_num))
  · exact abs_roundHalfEven_sub _

/-- Claim C4 witness on the two-segment engine at zero elapsed time. -/
theorem C4_success_payload_witness :
    wHello.whisperModel = some engHello ∧
    (0 : ℚ) ≤ wHello.elapsed ∧
    (transcribe_audio wHello reqBase).1 =
      .ok ⟨pyStrip (pyJoin (" ") ["Hello", " world"]), reqBase.model,
        roundHalfEven (wHello.elapsed * 1000)⟩ := by
  have hlen := reqBase_length
  have h := C4_success_payload wHello reqBase engHello ["Hello", " world"]
    rfl (by omega) (by omega) rfl (le_refl 0)
  exact ⟨rfl, le_refl 0, h.1⟩

/-- Claim C5, counterexample: an engine failure is answered with status
500 whose JSON body is the FastAPI detail shape carrying the wrapped
message, not a body with an error field as the claim states. -/
theorem C5_counterexample :
    (transcribe_audio wBoom reqBase).1.status = 500 ∧
    JsonBody.isErrorShape (renderBody (transcribe_audio wBoom reqBase).1) = false ∧
    renderBody (transcribe_audio wBoom reqBase).1 =
      .detailBody ("Transcription failed: boom") := by
  have hlen := reqBase_length
  have hbig : ¬reqBase.fileContent.length > 100 * 1024 * 1024 := by omega
  have hsmall : ¬reqBase.fileContent.length < 1024 := by omega
  have hw : wBoom.whisperModel = some engBoom := rfl
  have hcall : engBoom (engineCallOf wBoom reqBase) = .err ("boom") := rfl
  have e : (transcribe_audio wBoom reqBase).1 =
      .httpError 500 ("Transcription failed: " ++ "boom") := by
    simp [transcribe_audio, hw, hbig, hsmall, hcall]
  rw [e]
  refine ⟨rfl, rfl, ?_⟩
  decide

/-- Claim C5 (amended): an engine-side failure with message m is answered
with HTTP 500 and a JSON body whose detail field is the string
Transcription failed: m, which contains the underlying message; the body
shape with an error field is produced only by the global exception
handler for exceptions escaping the endpoint. -/
theorem C5_error_wrapping (w : World) (req : Request) (eng : Engine) (msg : String)
    (hw : w.whisperModel = some eng)
    (hmin : 1024 ≤ req.fileContent.length)
    (hmax : req.fileContent.length ≤ 100 * 1024 * 1024)
    (hcall : eng (engineCallOf w req) = .err msg) :
    (transcribe_audio w req).1 = .httpError 500 ("Transcription failed: " ++ msg) ∧
    renderBody (transcribe_audio w req).1 =
      .detailBody ("Transcription failed: " ++ msg) ∧
    global_exception_handler msg = (500, .errorBody msg) := by
  have hbig : ¬req.fileContent.length > 100 * 1024 * 1024 := by omega
  have hsmall : ¬req.fileContent.length < 1024 := by omega
  have e : (transcribe_audio w req).1 =
      .httpError 500 ("Transcription failed: " ++ msg) := by
    simp [transcribe_audio, hw, hbig, hsmall, hcall]
  refine ⟨e, ?_, rfl⟩
  rw [e]
  rfl

/-- Claim C5 (amended) witness with the message boom. -/
theorem C5_error_wrapping_witness :
    wBoom.whisperModel = some engBoom ∧
    engBoom (engineCallOf wBoom reqBase) = .err ("boom") ∧
    (transcribe_audio wBoom reqBase).1 =
      .httpError 500 ("Transcription failed: " ++ "boom") := by
  have hlen := reqBase_length
  have h := C5_error_wrapping wBoom reqBase engBoom ("boom")
    rfl (by omega) (by omega) rfl
  exact ⟨rfl, rfl, h.1⟩

/-- Claim C8: two requests with equal file bytes, filename and language
hint produce equal transcribed text under a fixed engine and fixed
nondeterminism, whatever their model, response_format and
timestamp_granularities fields are. -/
theorem C8_advisory_fields_no_influence (w : World) (r1 r2 : Request)
    (hc : r1.fileContent = r2.fileContent)
    (hf : r1.filename = r2.filename)
    (hl : r1.language = r2.language) :
    responseText (transcribe_audio w r1).1 = responseText (transcribe_audio w r2).1 := by
  cases hw : w.whisperModel with
  | none => simp [transcribe_audio, hw, responseText]
  | some eng =>
    have hcalleq : engineCallOf w r1 = engineCallOf w r2 := by
      simp [engineCallOf, temp_filename, hc, hf, hl]
    by_cases hbig : r1.fileContent.length > 100 * 1024 * 1024
    · have hbig2 : r2.fileContent.length > 100 * 1024 * 1024 := by
        rw [← hc]
        exact hbig
      simp [transcribe_audio, hw, hbig, hbig2, responseText]
    · have hbig2 : ¬r2.fileContent.length > 100 * 1024 * 1024 := by
        rw [← hc]
        exact hbig
      by_cases hsmall : r1.fileContent.length < 1024
      · have hsmall2 : r2.fileContent.length < 1024 := by
          rw [← hc]
          exact hsmall
        simp [transcribe_audio, hw, hbig, hbig2, hsmall, hsmall2, responseText]
      · have hsmall2 : ¬r2.fileContent.length < 1024 := by
          rw [← hc]
          exact hsmall
        cases hcall : eng (engineCallOf w r1) with
        | ok segs =>
          have hcall2 : eng (engineCallOf w r2) = .ok segs := by
            rw [← hcalleq]
            exact hcall
          simp [transcribe_audio, hw, hbig, hbig2, hsmall, hsmall2, hcall, hcall2,
            responseText]
        | err msg =>
          have hcall2 : eng (engineCallOf w r2) = .err msg := by
            rw [← hcalleq]
            exact hcall
          simp [transcribe_audio, hw, hbig, hbig2, hsmall, hsmall2, hcall, hcall2,
            responseText]

/-- Claim C8 witness: two requests differing in all three advisory fields
get the same text. -/
theorem C8_advisory_fields_no_influence_witness :
    reqBase.fileContent = reqAlt.fileContent ∧
    reqBase.filename = reqAlt.filename ∧
    reqBase.language = reqAlt.language ∧
    reqBase.model ≠ reqAlt.model ∧
    responseText (transcribe_audio wHello reqBase).1 =
      responseText (transcribe_audio wHello reqAlt).1 := by
  refine ⟨rfl, rfl, rfl, by decide, ?_⟩
  exact C8_advisory_fields_no_influence wHello reqBase reqAlt rfl rfl rfl

/-- Claim C9: whenever the drawn uuid hex string has its guaranteed form
of 32 lowercase hexadecimal characters, the temp path is /tmp/whisper_
followed by that identifier, a dot, and the part of the declared filename
after its last dot, the whole filename when it has no dot. -/
theorem C9_temp_path_shape (w : World) (req : Request)
    (hlen : w.uuidHex.data.length = 32)
    (hhex : w.uuidHex.data.all isLowerHex = true) :
    ∃ hex : String, hex.data.length = 32 ∧ hex.data.all isLowerHex = true ∧
      temp_filename w.uuidHex req.filename =
        "/tmp/whisper_" ++ hex ++ "." ++ String.mk (afterLastDot req.filename.data) := by
  refine ⟨w.uuidHex, hlen, hhex, ?_⟩
  unfold temp_filename pyExt
  rw [pyLastGroup_eq_afterLastDot]

/-- Claim C9 witness on a filename without a dot. -/
theorem C9_temp_path_shape_witness :
    wHello.uuidHex.data.length = 32 ∧
    wHello.uuidHex.data.all isLowerHex = true ∧
    (∃ hex : String, hex.data.length = 32 ∧ hex.data.all isLowerHex = true ∧
      temp_filename wHello.uuidHex reqNoDot.filename =
        "/tmp/whisper_" ++ hex ++ "." ++ String.mk (afterLastDot reqNoDot.filename.data)) := by
  refine ⟨by decide, by decide, ?_⟩
  exact C9_temp_path_shape wHello reqNoDot (by decide) (by decide)

example : pySplit '.' ("a.b").data = [['a'], ['b']] := by decide

example : pyExt ("sound.tar.gz") = "gz" := by decide

example : pyExt ("archive") = "archive" := by decide

example : pyExt ("dot.") = "" := by decide

example : pyStrip (pyJoin (" ") ["Hello", " world"]) = "Hello  world" := by decide

example : pyStrip (pyJoin (" ") []) = "" := by decide

end WhisperServer
